import Mathlib

/-!
Shallow embedding of the `ehtml` Go package (moapis/ehtml), a small library
that renders an HTML error page for a failed HTTP request.  The embedding
follows `src/ehtml.go` line by line:

* `Status` wraps a numeric HTTP status code (`type Status int`).
* `statusText` models the external dependency `net/http.StatusText`
  (standard reason phrase, or the empty string when unknown).
* `Provider` is the data contract exposed to templates.  The Go interface
  also carries the incoming request as an opaque pass-through value; the
  library logic never inspects it, so it is omitted here.
* `Data` is the concrete default implementation of `Provider`.
* `Template.exec` models executing a parsed `html/template` against a
  provider: it returns the text appended to the output buffer together with
  an optional execution error (partial output on failure is allowed, as in
  Go where `Execute` writes as it goes).
* `Pages.template` is the three-tier template selection.
* `bufPool` / `Pool` models the `sync.Pool` of `bytes.Buffer`
  (deterministically, as a stack, which is a refinement adequate for
  sequential renders).
* `ResponseWriter` models the abstract response sink: recorded status,
  accumulated body, plus a `writeErr` field describing whether body writes
  fail (as the `errorWriter` in the tests does, returning 0 bytes written).
* `Pages.Render` is the renderer with the fallback path.
-/

/-- Model of the Go standard library function `net/http.StatusText`, the
only behaviour of `net/http` the package depends on: the canonical reason
phrase for each registered status code, and the empty string otherwise. -/
def statusTextTable : List (Int × String) :=
  [(100, "Continue"), (101, "Switching Protocols"), (102, "Processing"),
   (103, "Early Hints"),
   (200, "OK"), (201, "Created"), (202, "Accepted"),
   (203, "Non-Authoritative Information"), (204, "No Content"),
   (205, "Reset Content"), (206, "Partial Content"), (207, "Multi-Status"),
   (208, "Already Reported"), (226, "IM Used"),
   (300, "Multiple Choices"), (301, "Moved Permanently"), (302, "Found"),
   (303, "See Other"), (304, "Not Modified"), (305, "Use Proxy"),
   (307, "Temporary Redirect"), (308, "Permanent Redirect"),
   (400, "Bad Request"), (401, "Unauthorized"), (402, "Payment Required"),
   (403, "Forbidden"), (404, "Not Found"), (405, "Method Not Allowed"),
   (406, "Not Acceptable"), (407, "Proxy Authentication Required"),
   (408, "Request Timeout"), (409, "Conflict"), (410, "Gone"),
   (411, "Length Required"), (412, "Precondition Failed"),
   (413, "Request Entity Too Large"), (414, "Request URI Too Long"),
   (415, "Unsupported Media Type"), (416, "Requested Range Not Satisfiable"),
   (417, "Expectation Failed"), (418, "I\x27m a teapot"),
   (421, "Misdirected Request"), (422, "Unprocessable Entity"),
   (423, "Locked"), (424, "Failed Dependency"), (425, "Too Early"),
   (426, "Upgrade Required"), (428, "Precondition Required"),
   (429, "Too Many Requests"), (431, "Request Header Fields Too Large"),
   (451, "Unavailable For Legal Reasons"),
   (500, "Internal Server Error"), (501, "Not Implemented"),
   (502, "Bad Gateway"), (503, "Service Unavailable"),
   (504, "Gateway Timeout"), (505, "HTTP Version Not Supported"),
   (506, "Variant Also Negotiates"), (507, "Insufficient Storage"),
   (508, "Loop Detected"), (510, "Not Extended"),
   (511, "Network Authentication Required")]

/-- Reason phrase of a status code; empty for an unrecognised code. -/
def statusText (code : Int) : String :=
  match List.lookup code statusTextTable with
  | some t => t
  | none => ""

/-- Go `type Status int`: holds an HTTP status code. -/
structure Status where
  code : Int
deriving DecidableEq, Repr

/-- Go method `Status.String`: the text description for the HTTP status
code, empty when the code is unknown (delegates to `http.StatusText`). -/
def Status.string (s : Status) : String := statusText s.code

/-- Go method `Status.Int`: returns the Status as int. -/
def Status.int (s : Status) : Int := s.code

/-- Go method `Status.toA`: `strconv.Itoa` of the code, i.e. its decimal
string. -/
def Status.toA (s : Status) : String := toString s.code

/-- The `Provider` interface of data to templates, as the renderer sees it:
a status, a message, and the `String()` summary method (field `str`).  The
`Request()` accessor is an opaque pass-through that the library logic never
reads and is omitted from the model. -/
structure Provider where
  status : Status
  message : String
  str : String

/-- Go struct `Data`, the default `Provider` implementation (the opaque
request pointer is omitted, see `Provider`). -/
structure Data where
  Code : Status
  Msg : String
deriving DecidableEq, Repr

/-- Go method `Data.Status`. -/
def Data.status (d : Data) : Status := d.Code

/-- Go method `Data.Message`. -/
def Data.message (d : Data) : String := d.Msg

/-- Go method `Data.String`:
Sprintf of percent-d, space, percent-s, colon, space, percent-s applied to
(d.Code, d.Code, d.Msg); the percent-s verb on a `Status` calls its
`String()` method. -/
def Data.string (d : Data) : String :=
  toString d.Code.code ++ " " ++ Status.string d.Code ++ ": " ++ d.Msg

/-- View of a `Data` value through the `Provider` interface. -/
def Data.toProvider (d : Data) : Provider :=
  { status := d.Code, message := d.Msg, str := d.string }

/-- Model of the `html/template` escaper applied to every interpolated
value in a plain-text HTML context (`template.HTMLEscapeString`). -/
def htmlEscape (s : String) : String :=
  String.join (s.data.map fun c =>
    if c = '<' then "&lt;"
    else if c = '>' then "&gt;"
    else if c = '&' then "&amp;"
    else if c.toNat = 34 then "&#34;"
    else if c.toNat = 39 then "&#39;"
    else String.singleton c)

/-- A parsed template, by its execution semantics: given the provider it
returns the text it appends to the output buffer and an optional execution
error (on failure the appended text may be partial, as with Go
`Template.Execute`). -/
structure Template where
  exec : Provider → String × Option String

/-- Literal segments of `DefaultTmpl`, the placeholder template source in
`ehtml.go` (the fragment before the title interpolation). -/
def defTmplPart1 : String :=
  "<!DOCTYPE html>\n<html lang=\"en\">\n<head>\n\t<meta charset=\"utf-8\">\n\t<title>"

/-- Fragment of `DefaultTmpl` between the title and the h1 interpolations. -/
def defTmplPart2 : String := "</title>\n</head>\n<body>\n\t<h1>"

/-- Fragment of `DefaultTmpl` between the h1 and the p interpolations. -/
def defTmplPart3 : String := "</h1>\n\t<p>"

/-- Trailing fragment of `DefaultTmpl` after the message interpolation. -/
def defTmplPart4 : String := "</p>\n</body>\n</html>"

/-- Go `defTmpl = template.Must(template.New("error").Parse(DefaultTmpl))`:
the parsed built-in placeholder template.  Its body interpolates, in order,
`.String` (the summary) in the title, `.Status.Int` and `.Status` in the
h1, and `.Message` in the p element; `html/template` escapes each
interpolated value.  It never fails on any provider. -/
def defTmpl : Template :=
  { exec := fun dp =>
      (defTmplPart1 ++ htmlEscape dp.str ++
       defTmplPart2 ++ toString dp.status.code ++ " " ++
         htmlEscape (Status.string dp.status) ++
       defTmplPart3 ++ htmlEscape dp.message ++
       defTmplPart4, none) }

/-- An externally supplied, pre-compiled collection of named templates
(the Go `*template.Template` namespace reached through `Lookup`). -/
structure TemplateSet where
  tmpls : List (String × Template)

/-- Go `Template.Lookup`: find a template by name in the set. -/
def TemplateSet.lookup (ts : TemplateSet) (name : String) : Option Template :=
  List.lookup name ts.tmpls

/-- Go struct `Pages`: `Tmpl *template.Template`, nil modelled as `none`. -/
structure Pages where
  Tmpl : Option TemplateSet

/-- Go method `Pages.template`: three-tier template selection.  Nil set
gives the default template; otherwise look up the decimal code string,
then "error", then fall back to the default template. -/
def Pages.template (p : Pages) (s : Status) : Template :=
  match p.Tmpl with
  | none => defTmpl
  | some ts =>
    match ts.lookup s.toA with
    | some tmpl => tmpl
    | none =>
      match ts.lookup "error" with
      | some tmpl => tmpl
      | none => defTmpl

/-- The `bufPool` of reusable output buffers, modelled by the list of the
contents of the pooled buffers (a deterministic stack refinement of
`sync.Pool`, adequate for sequential renders). -/
structure Pool where
  bufs : List String
deriving DecidableEq, Repr

/-- Go `bufPool.Get`: take a pooled buffer if one is available, otherwise a
fresh empty `bytes.Buffer`. -/
def Pool.get (p : Pool) : String × Pool :=
  match p.bufs with
  | [] => ("", p)
  | b :: rest => (b, { bufs := rest })

/-- Go `bufPool.Put`: `b.Reset()` then return it to the pool, so the stored
content is always empty. -/
def Pool.put (p : Pool) (b : String) : Pool :=
  { bufs := (fun _ => "") b :: p.bufs }

/-- The abstract response sink: recorded status code, accumulated body, and
a description of whether body writes fail.  When `writeErr` is `some e`,
every `write` call fails with `e` after writing nothing (like the
`errorWriter` used in the package tests); `writeHeader` keeps the first
status it is given, as `net/http` ignores superfluous calls. -/
structure ResponseWriter where
  status : Option Int
  body : String
  writeErr : Option String
deriving DecidableEq, Repr

/-- Go `w.WriteHeader(code)`: record the status; only the first call takes
effect. -/
def ResponseWriter.writeHeader (w : ResponseWriter) (code : Int) : ResponseWriter :=
  match w.status with
  | some _ => w
  | none => { w with status := some code }

/-- Go `w.Write(...)`: append to the body, or fail with the configured
write error without writing. -/
def ResponseWriter.write (w : ResponseWriter) (s : String) :
    ResponseWriter × Option String :=
  match w.writeErr with
  | some e => (w, some e)
  | none => ({ w with body := w.body ++ s }, none)

/-- A fresh response recorder with a working sink. -/
def ResponseWriter.empty : ResponseWriter :=
  { status := none, body := "", writeErr := none }

/-- The error returned by `Render`: either the wrap
"ehtml Render template: %w" of a template execution failure, or the wrap
"ehtml Render, write to client: %w" of a failure writing the final body. -/
inductive RenderErr where
  | tmplExec (cause : String) : RenderErr
  | writeClient (cause : String) : RenderErr
deriving DecidableEq, Repr

/-- The Go constant `RenderError`, returned to the client if the template
failed to render. -/
def RenderError : String := "500 Internal server error. While handling:\n%s"

/-- Substitution of a percent-s verb in a format character list by the
argument text (the fragment of `fmt` semantics that `Render` uses). -/
def substPercentS (arg : List Char) : List Char → List Char
  | [] => []
  | '%' :: 's' :: rest => arg ++ substPercentS arg rest
  | c :: rest => c :: substPercentS arg rest

/-- Model of `fmt.Sprintf` restricted to formats whose only verbs are
percent-s, as in `fmt.Fprintf(w, RenderError, dp)`; the percent-s verb on
a `Provider` calls its `String()` method, so the argument here is already
a string. -/
def fprintf1s (format arg : String) : String :=
  String.mk (substPercentS arg.data format.data)

/-- Go method `Pages.Render`: take a buffer from the pool (released, reset,
on every path); execute the selected template into it.  On execution
failure write header 500, best-effort write the `RenderError` fallback
(its write error is discarded), and return the wrapped execution error.
On success write the status header, then flush the buffer to the client,
wrapping a write failure.  Result: final writer, returned error, final
pool. -/
def Pages.Render (p : Pages) (w : ResponseWriter) (dp : Provider) (pool : Pool) :
    ResponseWriter × Option RenderErr × Pool :=
  let gp := pool.get
  let buf := gp.1
  let pool1 := gp.2
  let res := (p.template dp.status).exec dp
  let buf1 := buf ++ res.1
  match res.2 with
  | some err =>
    let w1 := w.writeHeader 500
    let w2 := (w1.write (fprintf1s RenderError dp.str)).1
    (w2, some (RenderErr.tmplExec err), pool1.put buf1)
  | none =>
    let w1 := w.writeHeader dp.status.int
    let wr := w1.write buf1
    match wr.2 with
    | some werr => (wr.1, some (RenderErr.writeClient werr), pool1.put buf1)
    | none => (wr.1, none, pool1.put "")

/-- The buffer-pool hygiene invariant: every pooled buffer is empty. -/
def PoolInv (pool : Pool) : Prop := ∀ b ∈ pool.bufs, b = ""

instance (pool : Pool) : Decidable (PoolInv pool) := by
  unfold PoolInv; infer_instance

/-- The body a render is specified to produce for a given provider: the
full template output on success, the fixed fallback text on execution
failure. -/
def expectedBody (p : Pages) (dp : Provider) : String :=
  match (p.template dp.status).exec dp with
  | (out, none) => out
  | (_, some _) => fprintf1s RenderError dp.str

/-- N sequential renders sharing one buffer pool, each into a fresh
recorder with a working sink; returns the per-render outcomes and the
final pool. -/
def renderSeq (p : Pages) (pool : Pool) :
    List Provider → List (ResponseWriter × Option RenderErr) × Pool
  | [] => ([], pool)
  | dp :: rest =>
    let r := p.Render ResponseWriter.empty dp pool
    let rs := renderSeq p r.2.2 rest
    ((r.1, r.2.1) :: rs.1, rs.2)

/-! Concrete fixtures mirroring the ones in `ehtml_test.go`. -/

/-- The test template defined as the name "error", body "Generic template". -/
def tmplGeneric : Template := { exec := fun _ => ("Generic template", none) }

/-- The test template defined as the name "404", body "404 template". -/
def tmpl404 : Template := { exec := fun _ => ("404 template", none) }

/-- The test template defined as the name "wrong", body "Wrong template". -/
def tmplWrong : Template := { exec := fun _ => ("Wrong template", none) }

/-- The failing test template (its body references the field `.Missing`
that `Data` does not have): execution errors after zero output. -/
def tmplFailing : Template := { exec := fun _ => ("", some "missing field") }

/-- The test set `testTmpl`: a generic "error" template plus a "404" one. -/
def testSet : TemplateSet := { tmpls := [("error", tmplGeneric), ("404", tmpl404)] }

/-- The test set `wrongTmpl`: only a template named "wrong". -/
def wrongSet : TemplateSet := { tmpls := [("wrong", tmplWrong)] }

/-- A set whose "error" template fails execution, as in `TestPages_Render`. -/
def failSet : TemplateSet := { tmpls := [("error", tmplFailing)] }

/-- The test data: status 404, message "Foo bar". -/
def d404 : Data := { Code := { code := 404 }, Msg := "Foo bar" }

/-- The `errorWriter` of the tests: every body write fails with
`io.ErrClosedPipe` after writing nothing. -/
def brokenWriter : ResponseWriter :=
  { status := none, body := "", writeErr := some "io: read/write on closed pipe" }

/-- Expected output of the default template for `d404`, the constant
`defaultTmplOut` of the test file. -/
def defaultTmplOut : String :=
  "<!DOCTYPE html>\n<html lang=\"en\">\n<head>\n\t<meta charset=\"utf-8\">\n\t<title>404 Not Found: Foo bar</title>\n</head>\n<body>\n\t<h1>404 Not Found</h1>\n\t<p>Foo bar</p>\n</body>\n</html>"

/-! Helper lemmas. -/

/-- Appending to the empty string is the identity. -/
theorem string_nil_append (s : String) : "" ++ s = s := by
  cases s; rfl

set_option maxRecDepth 8192 in
/-- Formatting `RenderError` with an argument yields the fixed fallback
prefix followed by the argument. -/
theorem fprintf1s_renderError (s : String) :
    fprintf1s RenderError s = "500 Internal server error. While handling:\n" ++ s := by
  cases s with
  | mk data =>
    have h1 : fprintf1s RenderError (String.mk data) =
        String.mk ("500 Internal server error. While handling:\n".data ++ (data ++ [])) := rfl
    have h2 : "500 Internal server error. While handling:\n" ++ String.mk data =
        String.mk ("500 Internal server error. While handling:\n".data ++ data) := rfl
    rw [h1, h2, List.append_nil]

/-- Checkout from a hygienic pool yields an empty buffer and keeps the
pool hygienic. -/
theorem poolInv_get {pool : Pool} (h : PoolInv pool) :
    (pool.get).1 = "" ∧ PoolInv (pool.get).2 := by
  cases pool with
  | mk bufs =>
    cases bufs with
    | nil => exact ⟨rfl, h⟩
    | cons b rest =>
      exact ⟨h b (List.mem_cons_self b rest), fun x hx => h x (List.mem_cons_of_mem b hx)⟩

/-- Returning any buffer keeps the pool hygienic, because `Put` resets. -/
theorem poolInv_put {pool : Pool} (h : PoolInv pool) (b : String) :
    PoolInv (pool.put b) := by
  intro x hx
  rcases List.mem_cons.mp hx with h1 | h2
  · exact h1
  · exact h x h2

/-- Setting the header does not touch the write behaviour of the sink. -/
theorem writeHeader_writeErr (w : ResponseWriter) (c : Int) :
    (w.writeHeader c).writeErr = w.writeErr := by
  cases w with | mk st b we => cases st <;> rfl

/-- Setting the header does not touch the accumulated body. -/
theorem writeHeader_body (w : ResponseWriter) (c : Int) :
    (w.writeHeader c).body = w.body := by
  cases w with | mk st b we => cases st <;> rfl

/-- A single render from a hygienic pool writes exactly the expected body
for its provider and leaves the pool hygienic. -/
theorem render_clean_body (p : Pages) (dp : Provider) {pool : Pool} (h : PoolInv pool) :
    (p.Render ResponseWriter.empty dp pool).1.body = expectedBody p dp ∧
    PoolInv (p.Render ResponseWriter.empty dp pool).2.2 := by
  obtain ⟨hbuf, hinv⟩ := poolInv_get h
  cases hexec : (p.template dp.status).exec dp with
  | mk out oerr =>
    cases oerr with
    | none =>
      constructor
      · simp only [Pages.Render, hexec, expectedBody, ResponseWriter.empty,
          ResponseWriter.writeHeader, ResponseWriter.write, hbuf, string_nil_append]
      · simp only [Pages.Render, hexec, ResponseWriter.empty, ResponseWriter.writeHeader,
          ResponseWriter.write, hbuf, string_nil_append]
        exact poolInv_put hinv _
    | some err =>
      constructor
      · simp only [Pages.Render, hexec, expectedBody, ResponseWriter.empty,
          ResponseWriter.writeHeader, ResponseWriter.write, hbuf, string_nil_append]
      · simp only [Pages.Render, hexec, ResponseWriter.empty, ResponseWriter.writeHeader,
          ResponseWriter.write, hbuf, string_nil_append]
        exact poolInv_put hinv _

/-! Claim theorems. -/

/-- Claim C1: template selection follows the fixed three-tier precedence:
with no template set the built-in default is returned; otherwise the
template named by the decimal string of the status code wins, then the one
named "error", then the built-in default.  Selection is a total function,
so it never fails. -/
theorem pages_template_precedence (p : Pages) (s : Status) :
    (p.Tmpl = none → p.template s = defTmpl) ∧
    (∀ ts tmpl, p.Tmpl = some ts → ts.lookup s.toA = some tmpl →
      p.template s = tmpl) ∧
    (∀ ts tmpl, p.Tmpl = some ts → ts.lookup s.toA = none →
      ts.lookup "error" = some tmpl → p.template s = tmpl) ∧
    (∀ ts, p.Tmpl = some ts → ts.lookup s.toA = none →
      ts.lookup "error" = none → p.template s = defTmpl) := by
  refine ⟨fun h => by simp [Pages.template, h],
    fun ts tmpl h1 h2 => by simp [Pages.template, h1, h2],
    fun ts tmpl h1 h2 h3 => by simp [Pages.template, h1, h2, h3],
    fun ts h1 h2 h3 => by simp [Pages.template, h1, h2, h3]⟩

set_option maxRecDepth 8192 in
/-- Witness for C1: the four tiers on the concrete test template sets. -/
theorem pages_template_precedence_witness :
    (Pages.mk none).template { code := 404 } = defTmpl ∧
    (Pages.mk (some testSet)).template { code := 404 } = tmpl404 ∧
    (Pages.mk (some testSet)).template { code := 400 } = tmplGeneric ∧
    (Pages.mk (some wrongSet)).template { code := 404 } = defTmpl := by
  refine ⟨(pages_template_precedence (Pages.mk none) { code := 404 }).1 rfl,
    (pages_template_precedence (Pages.mk (some testSet)) { code := 404 }).2.1
      testSet tmpl404 rfl (by rfl),
    (pages_template_precedence (Pages.mk (some testSet)) { code := 400 }).2.2.1
      testSet tmplGeneric rfl (by rfl) (by rfl),
    (pages_template_precedence (Pages.mk (some wrongSet)) { code := 404 }).2.2.2
      wrongSet rfl (by rfl) (by rfl)⟩

/-- Claim C8: selection is pure and deterministic: it depends only on the
template set and the status code (a two-run statement), and, being a pure
function of the set, leaves it unmodified. -/
theorem pages_template_deterministic (p₁ p₂ : Pages) (s₁ s₂ : Status)
    (ht : p₁.Tmpl = p₂.Tmpl) (hs : s₁.code = s₂.code) :
    p₁.template s₁ = p₂.template s₂ := by
  cases p₁; cases p₂; cases s₁; cases s₂
  simp only at ht hs
  subst ht; subst hs
  rfl

/-- Witness for C8: two runs with the same set and code coincide. -/
theorem pages_template_deterministic_witness :
    (Pages.mk (some testSet)).Tmpl = (Pages.mk (some testSet)).Tmpl ∧
    (404 : Int) = 404 ∧
    (Pages.mk (some testSet)).template { code := 404 } =
      (Pages.mk (some testSet)).template { code := 404 } :=
  ⟨rfl, rfl, pages_template_deterministic _ _ _ _ rfl rfl⟩

set_option maxRecDepth 8192 in
/-- Claim C3: the summary of a `Data` context is exactly the status code,
a space, the status text, a colon and space, and the message; for the
unrecognised code 900 the status text is empty and the single space is
preserved, and for 400 the summary matches the documented example. -/
theorem data_string_format :
    (∀ (code : Int) (msg : String),
      Data.string { Code := { code := code }, Msg := msg } =
        toString code ++ " " ++ statusText code ++ ": " ++ msg) ∧
    statusText 900 = "" ∧
    (∀ msg : String,
      Data.string { Code := { code := 900 }, Msg := msg } = "900 : " ++ msg) ∧
    Data.string { Code := { code := 400 }, Msg := "Parsing form data" } =
      "400 Bad Request: Parsing form data" := by
  refine ⟨fun code msg => rfl, by decide, fun msg => ?_, by decide⟩
  cases msg with
  | mk data => rfl

/-- Claim C2: when the selected template fails execution, `Render` sets
the response status to 500, writes the fixed fallback text followed by the
provider summary as the body, and returns the wrapped execution error. -/
theorem render_exec_failure_fallback (p : Pages) (w : ResponseWriter) (dp : Provider)
    (pool : Pool) (cause : String)
    (hexec : ((p.template dp.status).exec dp).2 = some cause)
    (hw : w.status = none) (hok : w.writeErr = none) :
    (p.Render w dp pool).1.status = some 500 ∧
    (p.Render w dp pool).1.body =
      w.body ++ ("500 Internal server error. While handling:\n" ++ dp.str) ∧
    (p.Render w dp pool).2.1 = some (RenderErr.tmplExec cause) := by
  simp only [Pages.Render, hexec, ResponseWriter.writeHeader, ResponseWriter.write, hw, hok,
    fprintf1s_renderError]
  exact ⟨trivial, trivial, trivial⟩

set_option maxRecDepth 8192 in
/-- Witness for C2: the failing test template at status 404 with message
"Foo bar" produces status 500 and exactly the documented fallback body. -/
theorem render_exec_failure_fallback_witness :
    ((Pages.mk (some failSet)).Render ResponseWriter.empty d404.toProvider
      { bufs := [] }).1.status = some 500 ∧
    ((Pages.mk (some failSet)).Render ResponseWriter.empty d404.toProvider
      { bufs := [] }).1.body =
      "500 Internal server error. While handling:\n404 Not Found: Foo bar" ∧
    ((Pages.mk (some failSet)).Render ResponseWriter.empty d404.toProvider
      { bufs := [] }).2.1 = some (RenderErr.tmplExec "missing field") := by
  have h := render_exec_failure_fallback (Pages.mk (some failSet)) ResponseWriter.empty
    d404.toProvider { bufs := [] } "missing field" rfl rfl rfl
  refine ⟨h.1, ?_, h.2.2⟩
  rw [h.2.1]
  decide

/-- Claim C5: when the selected template executes successfully and the
body write succeeds, `Render` sets the response status to the provider
status code, writes the full rendered output as the body, and returns
no error. -/
theorem render_success_status_and_body (p : Pages) (w : ResponseWriter) (dp : Provider)
    (pool : Pool) (out : String)
    (hexec : (p.template dp.status).exec dp = (out, none))
    (hw : w.status = none) (hok : w.writeErr = none) (hpool : PoolInv pool) :
    (p.Render w dp pool).1.status = some dp.status.int ∧
    (p.Render w dp pool).1.body = w.body ++ out ∧
    (p.Render w dp pool).2.1 = none := by
  obtain ⟨hbuf, hinv⟩ := poolInv_get hpool
  simp only [Pages.Render, hexec, ResponseWriter.writeHeader, ResponseWriter.write, hw, hok,
    hbuf, string_nil_append]
  exact ⟨trivial, trivial, trivial⟩

set_option maxRecDepth 8192 in
/-- Witness for C5: rendering `d404` with no template set writes status
404 and exactly the default template output, returning no error. -/
theorem render_success_status_and_body_witness :
    ((Pages.mk none).Render ResponseWriter.empty d404.toProvider
      { bufs := [""] }).1.status = some 404 ∧
    ((Pages.mk none).Render ResponseWriter.empty d404.toProvider
      { bufs := [""] }).1.body = defaultTmplOut ∧
    ((Pages.mk none).Render ResponseWriter.empty d404.toProvider
      { bufs := [""] }).2.1 = none := by
  have h := render_success_status_and_body (Pages.mk none) ResponseWriter.empty
    d404.toProvider { bufs := [""] } (defTmpl.exec d404.toProvider).1 (by rfl) rfl rfl
    (by decide)
  refine ⟨h.1, ?_, h.2.2⟩
  rw [h.2.1]
  decide

/-- Claim C6: when template execution succeeds but writing the final body
fails, `Render` returns an error wrapping the write failure, and that
error is a different constructor from a template execution wrap. -/
theorem render_body_write_failure_distinct (p : Pages) (w : ResponseWriter) (dp : Provider)
    (pool : Pool) (out e : String)
    (hexec : (p.template dp.status).exec dp = (out, none))
    (hfail : w.writeErr = some e) :
    (p.Render w dp pool).2.1 = some (RenderErr.writeClient e) ∧
    (∀ c, (RenderErr.writeClient e : RenderErr) ≠ RenderErr.tmplExec c) := by
  constructor
  · simp only [Pages.Render, hexec, ResponseWriter.write, writeHeader_writeErr, hfail]
  · intro c h
    cases h

/-- Witness for C6: rendering to the broken sink returns the wrapped pipe
error, which is not a template execution wrap. -/
theorem render_body_write_failure_distinct_witness :
    ((Pages.mk none).Render brokenWriter d404.toProvider { bufs := [] }).2.1 =
      some (RenderErr.writeClient "io: read/write on closed pipe") ∧
    (RenderErr.writeClient "io: read/write on closed pipe" ≠
      RenderErr.tmplExec "missing field") := by
  have h := render_body_write_failure_distinct (Pages.mk none) brokenWriter
    d404.toProvider { bufs := [] } (defTmpl.exec d404.toProvider).1 "io: read/write on closed pipe"
    (by rfl) rfl
  exact ⟨h.1, h.2 "missing field"⟩

/-- Claim C10: when template execution succeeds and the body write fails,
the response status has already been set to the provider status code by
the preceding header write, and the write failure does not change it. -/
theorem render_write_failure_keeps_status (p : Pages) (w : ResponseWriter) (dp : Provider)
    (pool : Pool) (out e : String)
    (hexec : (p.template dp.status).exec dp = (out, none))
    (hw : w.status = none) (hfail : w.writeErr = some e) :
    (p.Render w dp pool).1.status = some dp.status.int ∧
    (p.Render w dp pool).2.1 = some (RenderErr.writeClient e) := by
  simp only [Pages.Render, hexec, ResponseWriter.writeHeader, hw, ResponseWriter.write, hfail]
  exact ⟨trivial, trivial⟩

/-- Witness for C10: the broken sink still records status 404 while the
returned error wraps the pipe failure. -/
theorem render_write_failure_keeps_status_witness :
    ((Pages.mk none).Render brokenWriter d404.toProvider { bufs := [] }).1.status =
      some 404 ∧
    ((Pages.mk none).Render brokenWriter d404.toProvider { bufs := [] }).2.1 =
      some (RenderErr.writeClient "io: read/write on closed pipe") := by
  have h := render_write_failure_keeps_status (Pages.mk none) brokenWriter
    d404.toProvider { bufs := [] } (defTmpl.exec d404.toProvider).1
    "io: read/write on closed pipe" (by rfl) rfl rfl
  exact ⟨h.1, h.2⟩

set_option maxRecDepth 8192 in
/-- Counterexample to claim C4: with the failing template and the broken
sink, the fallback body write fails, yet the error `Render` returns is the
wrapped template execution failure, not the write failure: the write error
of the fallback path is discarded. -/
theorem render_fallback_write_error_cex :
    ((Pages.mk (some failSet)).Render brokenWriter d404.toProvider { bufs := [] }).2.1 =
      some (RenderErr.tmplExec "missing field") ∧
    ((Pages.mk (some failSet)).Render brokenWriter d404.toProvider { bufs := [] }).2.1 ≠
      some (RenderErr.writeClient "io: read/write on closed pipe") := by
  have h : ((Pages.mk (some failSet)).Render brokenWriter d404.toProvider
      { bufs := [] }).2.1 = some (RenderErr.tmplExec "missing field") := rfl
  refine ⟨h, ?_⟩
  rw [h]
  simp

/-- Claim C4 amended: the fallback write is best-effort: whether or not
writing the fallback body to the sink fails, `Render` returns exactly the
wrapped template execution error and never a write wrap on that path. -/
theorem render_fallback_write_best_effort (p : Pages) (w : ResponseWriter) (dp : Provider)
    (pool : Pool) (cause : String)
    (hexec : ((p.template dp.status).exec dp).2 = some cause) :
    (p.Render w dp pool).2.1 = some (RenderErr.tmplExec cause) ∧
    ∀ e, (p.Render w dp pool).2.1 ≠ some (RenderErr.writeClient e) := by
  have h : (p.Render w dp pool).2.1 = some (RenderErr.tmplExec cause) := by
    simp only [Pages.Render, hexec]
  refine ⟨h, fun e he => ?_⟩
  rw [h] at he
  simp at he

/-- Witness for the amended C4: concrete failing template and broken sink. -/
theorem render_fallback_write_best_effort_witness :
    (((Pages.mk (some failSet)).template d404.toProvider.status).exec d404.toProvider).2 =
      some "missing field" ∧
    ((Pages.mk (some failSet)).Render brokenWriter d404.toProvider { bufs := [] }).2.1 =
      some (RenderErr.tmplExec "missing field") ∧
    ((Pages.mk (some failSet)).Render brokenWriter d404.toProvider { bufs := [] }).2.1 ≠
      some (RenderErr.writeClient "io: read/write on closed pipe") := by
  have h := render_fallback_write_best_effort (Pages.mk (some failSet)) brokenWriter
    d404.toProvider { bufs := [] } "missing field" rfl
  exact ⟨rfl, h.1, h.2 "io: read/write on closed pipe"⟩

/-- Claim C7: starting from a hygienic pool (every pooled buffer empty,
which `Put` re-establishes by resetting before reuse), every render in a
sequence of N sequential renders writes exactly the body expected for its
own provider, with no residue from earlier renders, and the pool stays
hygienic. -/
theorem renderSeq_no_residue (p : Pages) (dps : List Provider) (pool : Pool)
    (h : PoolInv pool) :
    List.Forall₂ (fun r dp => r.1.body = expectedBody p dp)
      (renderSeq p pool dps).1 dps ∧
    PoolInv (renderSeq p pool dps).2 := by
  induction dps generalizing pool with
  | nil => exact ⟨List.Forall₂.nil, h⟩
  | cons dp rest ih =>
    obtain ⟨hbody, hinv⟩ := render_clean_body p dp h
    obtain ⟨hf, hp⟩ := ih _ hinv
    exact ⟨List.Forall₂.cons hbody hf, hp⟩

/-- Witness for C7: two sequential renders of the default template from a
pool holding one (empty) buffer. -/
theorem renderSeq_no_residue_witness :
    PoolInv { bufs := [""] } ∧
    (List.Forall₂ (fun r dp => r.1.body = expectedBody (Pages.mk none) dp)
      (renderSeq (Pages.mk none) { bufs := [""] }
        [d404.toProvider, d404.toProvider]).1
      [d404.toProvider, d404.toProvider] ∧
     PoolInv (renderSeq (Pages.mk none) { bufs := [""] }
        [d404.toProvider, d404.toProvider]).2) := by
  refine ⟨by decide, renderSeq_no_residue (Pages.mk none)
    [d404.toProvider, d404.toProvider] { bufs := [""] } (by decide)⟩

set_option maxRecDepth 8192 in
/-- Title opening marker lands at the end of the first literal segment. -/
theorem defTmplPart1_split :
    defTmplPart1 =
      "<!DOCTYPE html>\n<html lang=\"en\">\n<head>\n\t<meta charset=\"utf-8\">\n\t" ++
        "<title>" := by decide

set_option maxRecDepth 8192 in
/-- The second literal segment starts by closing the title element. -/
theorem defTmplPart2_splitL :
    defTmplPart2 = "</title>" ++ "\n</head>\n<body>\n\t<h1>" := by decide

set_option maxRecDepth 8192 in
/-- The second literal segment ends by opening the h1 element. -/
theorem defTmplPart2_splitR :
    defTmplPart2 = "</title>\n</head>\n<body>\n\t" ++ "<h1>" := by decide

set_option maxRecDepth 8192 in
/-- The third literal segment starts by closing the h1 element. -/
theorem defTmplPart3_splitL :
    defTmplPart3 = "</h1>" ++ "\n\t<p>" := by decide

set_option maxRecDepth 8192 in
/-- The third literal segment ends by opening the p element. -/
theorem defTmplPart3_splitR :
    defTmplPart3 = "</h1>\n\t" ++ "<p>" := by decide

set_option maxRecDepth 8192 in
/-- The trailing literal segment starts by closing the p element. -/
theorem defTmplPart4_split :
    defTmplPart4 = "</p>" ++ "\n</body>\n</html>" := by decide

set_option maxRecDepth 8192 in
/-- Claim C9: for every provider the built-in default template renders,
without error, a document whose title element holds the provider summary,
whose h1 element holds the status code followed by the status text, and
whose p element holds the message (each interpolation HTML-escaped); on
the canonical 404 "Foo bar" data the output is exactly the document the
package tests record. -/
theorem defTmpl_output_shape (dp : Provider) :
    (defTmpl.exec dp).2 = none ∧
    ("<title>" ++ htmlEscape dp.str ++ "</title>").data <:+:
      (defTmpl.exec dp).1.data ∧
    ("<h1>" ++ toString dp.status.code ++ " " ++
      htmlEscape (Status.string dp.status) ++ "</h1>").data <:+:
      (defTmpl.exec dp).1.data ∧
    ("<p>" ++ htmlEscape dp.message ++ "</p>").data <:+:
      (defTmpl.exec dp).1.data ∧
    (defTmpl.exec d404.toProvider).1 = defaultTmplOut := by
  refine ⟨rfl, ?_, ?_, ?_, by decide⟩
  · refine ⟨"<!DOCTYPE html>\n<html lang=\"en\">\n<head>\n\t<meta charset=\"utf-8\">\n\t".data,
      ("\n</head>\n<body>\n\t<h1>" ++ toString dp.status.code ++ " " ++
        htmlEscape (Status.string dp.status) ++ defTmplPart3 ++ htmlEscape dp.message ++
        defTmplPart4).data, ?_⟩
    simp only [defTmpl, defTmplPart1_split, defTmplPart2_splitL, String.data_append,
      List.append_assoc]
  · refine ⟨(defTmplPart1 ++ htmlEscape dp.str ++ "</title>\n</head>\n<body>\n\t").data,
      ("\n\t<p>" ++ htmlEscape dp.message ++ defTmplPart4).data, ?_⟩
    simp only [defTmpl, defTmplPart2_splitR, defTmplPart3_splitL, String.data_append,
      List.append_assoc]
  · refine ⟨(defTmplPart1 ++ htmlEscape dp.str ++ defTmplPart2 ++
      toString dp.status.code ++ " " ++ htmlEscape (Status.string dp.status) ++
      "</h1>\n\t").data, "\n</body>\n</html>".data, ?_⟩
    simp only [defTmpl, defTmplPart3_splitR, defTmplPart4_split, String.data_append,
      List.append_assoc]
